import Mathlib

/-!
Verification of the rustpy-toolkit batch validation/normalization engine.

The repository ships only the Python entry points, the polars plugin
wrapper (`expression_lib/__init__.py`) and benchmark scaffolding; the
Rust engine (`rustpy_toolkit.cpf_cnpj`, `rustpy_toolkit.phone`) is not
part of the source tree. The engine definitions below are therefore
modelled from the design specification; the plugin registration for
`pig_latinnify` is embedded from `expression_lib/__init__.py`.

Digit sequences are represented as `List Nat` with each element a
decimal-digit value (0–9); strings use Lean's `String`/`Char`.
-/

namespace RustpyToolkit

/-- Digit extraction over a character list: every character that is
not a decimal digit is discarded, digit order is preserved, and each
kept character is mapped to its numeric value. -/
def digitsOfChars (cs : List Char) : List Nat :=
  cs.filterMap (fun c => if c.isDigit then some (c.toNat - 48) else none)

/-- Modelled from the spec: the Digit Extractor (§4.1, not under src/,
implemented in the missing Rust engine). -/
def extract_digits (s : String) : List Nat :=
  digitsOfChars s.data

/-- `true` iff the sequence is one repeated digit (vacuously for `[]`). -/
def all_same (ds : List Nat) : Bool :=
  match ds with
  | [] => true
  | d :: rest => rest.all (· == d)

/-- Weighted digit sum: pairs `ds` with `ws` positionally and sums the
products (extra elements of either list are ignored by `zip`). -/
def weightedSum (ds ws : List Nat) : Nat :=
  ((ds.zip ws).map (fun p => p.1 * p.2)).foldl (· + ·) 0

/-- Modelled from the spec: the modulo-11 check-digit step (§4.2):
`11 - (sum mod 11)`, taken as 0 when that value is ≥ 10. -/
def checkDigit (s : Nat) : Nat :=
  let r := 11 - s % 11
  if 10 ≤ r then 0 else r

/-- Modelled from the spec: first CPF check digit over the 9-digit base,
weights descending from 10 to 2. -/
def cpf_dv1 (ds : List Nat) : Nat :=
  checkDigit (weightedSum (ds.take 9) [10, 9, 8, 7, 6, 5, 4, 3, 2])

/-- Modelled from the spec: second CPF check digit over the 10-digit
base formed by appending the first check digit, weights descending from
11 to 2. -/
def cpf_dv2 (ds : List Nat) : Nat :=
  checkDigit (weightedSum (ds.take 9 ++ [cpf_dv1 ds]) [11, 10, 9, 8, 7, 6, 5, 4, 3, 2])

/-- Modelled from the spec: first CNPJ check digit over the 12-digit
base. The spec's literal weight list (4,3,2,9,8,7,6,5,4,3,2) has only
11 entries for the 12-digit base and contradicts the spec's own fixture
`60204424000108 → valid CNPJ` (per example data in
`example_usage.py`); the standard sequence 5,4,3,2,9,8,7,6,5,4,3,2 —
the spec's list extended by one more leading weight, exactly as the
spec itself extends it for the second digit — validates the fixture and
is used here. -/
def cnpj_dv1 (ds : List Nat) : Nat :=
  checkDigit (weightedSum (ds.take 12) [5, 4, 3, 2, 9, 8, 7, 6, 5, 4, 3, 2])

/-- Modelled from the spec: second CNPJ check digit over the 13-digit
base formed by appending the first check digit, with one more leading
weight. -/
def cnpj_dv2 (ds : List Nat) : Nat :=
  checkDigit (weightedSum (ds.take 12 ++ [cnpj_dv1 ds]) [6, 5, 4, 3, 2, 9, 8, 7, 6, 5, 4, 3, 2])

/-- The spec's literal 11-entry CNPJ weight list for the first check
digit, kept verbatim for comparison with `cnpj_dv1` (refinement
check): zipping it against the 12-digit base drops the last base
digit. -/
def cnpj_dv1_specWeights (ds : List Nat) : Nat :=
  checkDigit (weightedSum (ds.take 12) [4, 3, 2, 9, 8, 7, 6, 5, 4, 3, 2])

/-- Identifier kinds (spec data model §3). -/
inductive IdentifierKind where
  | CPF
  | CNPJ
  | Unrecognized
  deriving DecidableEq, Repr

/-- Modelled from the spec: classification by length alone (§3, §4.2
step 1): 11 → CPF, 14 → CNPJ, anything else → Unrecognized. -/
def classify (ds : List Nat) : IdentifierKind :=
  if ds.length = 11 then .CPF
  else if ds.length = 14 then .CNPJ
  else .Unrecognized

/-- Modelled from the spec: the CPF/CNPJ Classifier & Validator (§4.2,
not under src/). Length 11 → CPF checksum, length 14 → CNPJ checksum,
all-identical sequences rejected first, any other length invalid. -/
def validate_document (ds : List Nat) : Bool :=
  if ds.length = 11 then
    !all_same ds && (ds.getD 9 0 == cpf_dv1 ds && ds.getD 10 0 == cpf_dv2 ds)
  else if ds.length = 14 then
    !all_same ds && (ds.getD 12 0 == cnpj_dv1 ds && ds.getD 13 0 == cnpj_dv2 ds)
  else false

/-- ValidationOutcome of the spec's data model: kind paired with
validity. -/
def validateOutcome (ds : List Nat) : IdentifierKind × Bool :=
  (classify ds, validate_document ds)

example : validate_document [5, 0, 5, 4, 2, 9, 8, 3, 8, 0, 0] = true := by decide

example : validate_document [6, 0, 2, 0, 4, 4, 2, 4, 0, 0, 0, 1, 0, 8] = true := by decide

example : validate_document (List.replicate 11 1) = false := by decide

example : cpf_dv1 (List.replicate 11 1) = 1 := by decide

/-- Renders a digit value 0–9 as its decimal character. -/
def digitChar (d : Nat) : Char := Char.ofNat (48 + d)

/-- Character rendering of a digit sequence. -/
def charsOf (ds : List Nat) : List Char := ds.map digitChar

/-- Modelled from the spec: the CPF/CNPJ Formatter (§4.3, not under
src/). Length 11 renders `DDD.DDD.DDD-DD`, length 14 renders
`DD.DDD.DDD/DDDD-DD`, anything else is absent; validity is never
consulted. -/
def format_document (ds : List Nat) : Option String :=
  if ds.length = 11 then
    some (String.mk (charsOf (ds.take 3) ++ '.' ::
      (charsOf ((ds.drop 3).take 3) ++ '.' ::
        (charsOf ((ds.drop 6).take 3) ++ '-' :: charsOf (ds.drop 9)))))
  else if ds.length = 14 then
    some (String.mk (charsOf (ds.take 2) ++ '.' ::
      (charsOf ((ds.drop 2).take 3) ++ '.' ::
        (charsOf ((ds.drop 5).take 3) ++ '/' ::
          (charsOf ((ds.drop 8).take 4) ++ '-' :: charsOf (ds.drop 12))))))
  else none

example : format_document [5, 0, 5, 4, 2, 9, 8, 3, 8, 0, 0] = some "505.429.838-00" := by decide

example : format_document [6, 0, 2, 0, 4, 4, 2, 4, 0, 0, 0, 1, 0, 8] =
    some "60.204.424/0001-08" := by decide

/-- Modelled from the spec: step 1 of the Phone Parser (§4.4): strip a
leading country code "55" when the remainder still fits a national
number (10 or 11 digits). -/
def strip_country (ds : List Nat) : List Nat :=
  match ds with
  | 5 :: 5 :: rest => if rest.length = 10 ∨ rest.length = 11 then rest else ds
  | _ => ds

/-- Modelled from the spec: step 2 of the Phone Parser (§4.4): strip a
leading trunk-prefix "0" when enough digits remain for a national
number (10 or 11 digits). -/
def strip_trunk (ds : List Nat) : List Nat :=
  match ds with
  | 0 :: rest => if rest.length = 10 ∨ rest.length = 11 then rest else ds
  | _ => ds

/-- Modelled from the spec: the Phone Parser & Validator (§4.4, not
under src/). After stripping, the first two digits are the area code
(acceptable in 11–99); strict mode requires a subscriber segment of
exactly 8 digits, or exactly 9 digits beginning with 9; flexible mode
accepts 8 or 9 digits without the leading-9 requirement. -/
def validate_phone (strict : Bool) (ds : List Nat) : Bool :=
  match strip_trunk (strip_country ds) with
  | a :: b :: rest =>
    (decide (11 ≤ 10 * a + b) && decide (10 * a + b ≤ 99)) &&
      (if strict then rest.length == 8 || (rest.length == 9 && rest.headD 0 == 9)
       else rest.length == 8 || rest.length == 9)
  | _ => false

/-- Modelled from the spec: the flexible-compatible parse used by the
Phone Formatter (§4.5): recover area code and subscriber number, absent
on failure. -/
def parse_phone (ds : List Nat) : Option (List Nat × List Nat) :=
  match strip_trunk (strip_country ds) with
  | a :: b :: rest =>
    if 11 ≤ 10 * a + b ∧ 10 * a + b ≤ 99 ∧ (rest.length = 8 ∨ rest.length = 9) then
      some ([a, b], rest)
    else none
  | _ => none

/-- Modelled from the spec: the Phone Formatter (§4.5, not under
src/): `+55 (AA) SSSSS-SSSS` for 9-digit subscriber numbers,
`+55 (AA) SSSS-SSSS` for 8-digit ones, absent when parsing fails. -/
def format_phone (ds : List Nat) : Option String :=
  (parse_phone ds).map (fun p =>
    String.mk ('+' :: '5' :: '5' :: ' ' :: '(' ::
      (charsOf p.1 ++ ')' :: ' ' ::
        (charsOf (p.2.take (p.2.length - 4)) ++ '-' :: charsOf (p.2.drop (p.2.length - 4))))))

example : validate_phone true [1, 6, 9, 9, 7, 1, 8, 4, 7, 2, 0] = true := by decide

example : validate_phone true [1, 6, 8, 9, 7, 1, 8, 4, 7, 2, 0] = false := by decide

example : validate_phone false [1, 6, 8, 9, 7, 1, 8, 4, 7, 2, 0] = true := by decide

example : validate_phone true [5, 5, 1, 6, 9, 9, 7, 1, 8, 4, 7, 2, 0] = true := by decide

example : format_phone [1, 6, 9, 9, 7, 1, 8, 4, 7, 2, 0] = some "+55 (16) 99718-4720" := by
  decide

/-! ### String-level engine operations (spec §6) -/

/-- Modelled from the spec: `validate_document` over a text value. -/
def validate_document_str (s : String) : Bool :=
  validate_document (extract_digits s)

/-- Modelled from the spec: `classify_document` over a text value. -/
def classify_document_str (s : String) : IdentifierKind :=
  classify (extract_digits s)

/-- Modelled from the spec: `format_document` over a text value. -/
def format_document_str (s : String) : Option String :=
  format_document (extract_digits s)

/-- Modelled from the spec: `validate_phone` over a text value. -/
def validate_phone_str (strict : Bool) (s : String) : Bool :=
  validate_phone strict (extract_digits s)

/-- Modelled from the spec: `format_phone` over a text value. -/
def format_phone_str (s : String) : Option String :=
  format_phone (extract_digits s)

/-! ### Optional-input operations and the Batch Executor (spec §4.6, §6, §7) -/

/-- Modelled from the spec: absent input propagates to absent output
for every operation (§7). -/
def validate_document_op (x : Option String) : Option Bool :=
  x.map validate_document_str

/-- Modelled from the spec: optional-input classification. -/
def classify_document_op (x : Option String) : Option IdentifierKind :=
  x.map classify_document_str

/-- Modelled from the spec: optional-input formatting (absent input or
unclassifiable digits yield absent). -/
def format_document_op (x : Option String) : Option String :=
  x.bind format_document_str

/-- Modelled from the spec: optional-input phone validation. -/
def validate_phone_op (strict : Bool) (x : Option String) : Option Bool :=
  x.map (validate_phone_str strict)

/-- Modelled from the spec: optional-input phone formatting. -/
def format_phone_op (x : Option String) : Option String :=
  x.bind format_phone_str

/-- Modelled from the spec: the Batch Executor (§4.6, not under src/):
a pure positional map of the selected per-value operation over an
ordered sequence of optional inputs; an absent input maps to an absent
output without the operation being invoked. -/
def batch_execute {β : Type} (f : String → β) (xs : List (Option String)) :
    List (Option β) :=
  xs.map (Option.map f)

example : batch_execute validate_document_str [some "505.429.838-00", none, some "junk"] =
    [some true, none, some false] := by decide

/-- Batch execution of an operation whose per-value result is itself
optional (the formatters): absent input and absent per-value result
both surface as an absent output element. -/
def batch_execute_opt {β : Type} (f : String → Option β) (xs : List (Option String)) :
    List (Option β) :=
  xs.map (fun x => x.bind f)

/-! ### The polars plugin registration (`src/expression_lib/__init__.py`) -/

/-- A plugin function registration as passed to polars'
`register_plugin_function`: the registered name and the elementwise
flag (the plugin path and argument plumbing carry no semantics at this
level). -/
structure PluginRegistration where
  function_name : String
  is_elementwise : Bool

/-- Embedded from `src/expression_lib/__init__.py`: `pig_latinnify`
registers the plugin function named "pig_latinnify" with
`is_elementwise=True`. -/
def pig_latinnify : PluginRegistration :=
  { function_name := "pig_latinnify", is_elementwise := true }

/-- Modelled from the spec: the host's columnar application of a
registered plugin function. `impl` interprets registered function
names as per-value string functions (the Rust implementations are not
under src/). A registration whose elementwise flag is set is applied
as a pure positional map with null propagation; a registration without
the flag may consume the column as a whole, modelled by an arbitrary
column-level function `whole`. -/
def apply_registration (impl : String → String → String)
    (whole : List (Option String) → List (Option String))
    (reg : PluginRegistration) (xs : List (Option String)) : List (Option String) :=
  if reg.is_elementwise then xs.map (Option.map (impl reg.function_name)) else whole xs

/-! ## Helper lemmas -/

theorem isDigit_toNat_bounds (c : Char) (h : c.isDigit = true) :
    48 ≤ c.toNat ∧ c.toNat ≤ 57 := by
  simp [Char.isDigit] at h
  obtain ⟨h1, h2⟩ := h
  have g1 := BitVec.le_def.mp (UInt32.le_def.mp h1)
  have g2 := BitVec.le_def.mp (UInt32.le_def.mp h2)
  simp [Char.toNat, UInt32.toNat] at *
  omega

theorem digitChar_isDigit (d : Nat) (h : d < 10) :
    (digitChar d).isDigit = true ∧ (digitChar d).toNat - 48 = d := by
  interval_cases d <;> exact ⟨by decide, by decide⟩

theorem extract_digits_lt (s : String) : ∀ d ∈ extract_digits s, d < 10 := by
  intro d hd
  simp [extract_digits, digitsOfChars, List.mem_filterMap] at hd
  obtain ⟨c, _, hdig, hval⟩ := hd
  have := (isDigit_toNat_bounds c hdig).2
  omega

theorem digitsOfChars_append (xs ys : List Char) :
    digitsOfChars (xs ++ ys) = digitsOfChars xs ++ digitsOfChars ys := by
  simp [digitsOfChars, List.filterMap_append]

theorem digitsOfChars_cons_nondigit (c : Char) (cs : List Char) (h : c.isDigit = false) :
    digitsOfChars (c :: cs) = digitsOfChars cs := by
  simp [digitsOfChars, List.filterMap_cons, h]

theorem digitsOfChars_charsOf (ds : List Nat) (h : ∀ d ∈ ds, d < 10) :
    digitsOfChars (charsOf ds) = ds := by
  induction ds with
  | nil => rfl
  | cons d rest ih =>
    have hd := digitChar_isDigit d (h d (List.mem_cons_self d rest))
    have hrest : ∀ x ∈ rest, x < 10 := fun x hx => h x (List.mem_cons_of_mem d hx)
    simp [charsOf, digitsOfChars, List.filterMap_cons, hd.1, hd.2] at *
    exact ih hrest

theorem cpf_segments (l : List Nat) :
    l.take 3 ++ ((l.drop 3).take 3 ++ ((l.drop 6).take 3 ++ l.drop 9)) = l := by
  conv_rhs => rw [← List.take_append_drop 3 l]
  congr 1
  conv_rhs => rw [← List.take_append_drop 3 (l.drop 3)]
  rw [List.drop_drop]
  congr 1
  conv_rhs => rw [← List.take_append_drop 3 (l.drop 6)]
  rw [List.drop_drop]

theorem cnpj_segments (l : List Nat) :
    l.take 2 ++ ((l.drop 2).take 3 ++ ((l.drop 5).take 3 ++ ((l.drop 8).take 4 ++ l.drop 12))) =
      l := by
  conv_rhs => rw [← List.take_append_drop 2 l]
  congr 1
  conv_rhs => rw [← List.take_append_drop 3 (l.drop 2)]
  rw [List.drop_drop]
  congr 1
  conv_rhs => rw [← List.take_append_drop 3 (l.drop 5)]
  rw [List.drop_drop]
  congr 1
  conv_rhs => rw [← List.take_append_drop 4 (l.drop 8)]
  rw [List.drop_drop]

/-! ## Claim theorems -/

/-- C1: the Batch Executor returns an output sequence of length
exactly N, position-for-position aligned with the input (`output[i]`
is the per-value operation applied to `input[i]`, both for plain and
for option-valued operations such as the formatters); an absent input
at position i yields an absent output at position i (the per-value
operation is never invoked: `Option.map`/`Option.bind` on `none`
short-circuit), and no other element influences position i: two input
sequences agreeing at position i produce outputs agreeing at
position i. `f` and `g` range over the string-level engine operations
(`validate_document_str`, `classify_document_str`,
`validate_phone_str`, and `format_document_str`/`format_phone_str`
respectively). -/
theorem batch_execute_positional {β γ : Type} (f : String → β) (g : String → Option γ)
    (xs ys : List (Option String)) (i : Nat) :
    (batch_execute f xs).length = xs.length ∧
    (batch_execute_opt g xs).length = xs.length ∧
    (batch_execute f xs)[i]? = (xs[i]?).map (Option.map f) ∧
    (batch_execute_opt g xs)[i]? = (xs[i]?).map (fun x => x.bind g) ∧
    (xs[i]? = some none →
      (batch_execute f xs)[i]? = some none ∧ (batch_execute_opt g xs)[i]? = some none) ∧
    (xs[i]? = ys[i]? →
      (batch_execute f xs)[i]? = (batch_execute f ys)[i]? ∧
      (batch_execute_opt g xs)[i]? = (batch_execute_opt g ys)[i]?) := by
  refine ⟨by simp [batch_execute], by simp [batch_execute_opt],
    by simp [batch_execute, List.getElem?_map], by simp [batch_execute_opt, List.getElem?_map],
    fun h => ?_, fun h => ?_⟩
  · constructor <;> simp [batch_execute, batch_execute_opt, List.getElem?_map, h]
  · constructor <;> simp [batch_execute, batch_execute_opt, List.getElem?_map, h]

theorem batch_execute_positional_witness :
    (batch_execute validate_document_str [some "50542983800", none])[1]? = some none ∧
    (batch_execute_opt format_document_str [some "50542983800", none])[1]? = some none :=
  (batch_execute_positional validate_document_str format_document_str
    [some "50542983800", none] [] 1).2.2.2.2.1 rfl

/-- C2 counterexample: the eleven-fold repeated digit 1 satisfies both
CPF checksum equations, yet `validate_document` reports it invalid
(the all-identical rule fires first), so "valid iff the check-digit
equations hold" is false as stated for this 11-digit sequence. -/
theorem cpf_repdigit_passes_checksum :
    validate_document [1, 1, 1, 1, 1, 1, 1, 1, 1, 1, 1] = false ∧
    [1, 1, 1, 1, 1, 1, 1, 1, 1, 1, 1].getD 9 0 = cpf_dv1 [1, 1, 1, 1, 1, 1, 1, 1, 1, 1, 1] ∧
    [1, 1, 1, 1, 1, 1, 1, 1, 1, 1, 1].getD 10 0 = cpf_dv2 [1, 1, 1, 1, 1, 1, 1, 1, 1, 1, 1] := by
  decide

/-- C2 (amended): for every 11-digit sequence that is not one repeated
digit, `validate_document` reports a valid CPF iff the digit at
position 9 equals the first check digit (11 minus the weighted sum mod
11, taken as 0 when ≥ 10, weights 10 down to 2) and the digit at
position 10 equals the second check digit computed the same way over
the 10-digit base with weights 11 down to 2; the digits 50542983800
are reported a valid CPF. -/
theorem cpf_checksum_characterization (ds : List Nat)
    (hlen : ds.length = 11) (hns : all_same ds = false) :
    (validate_document ds = true ↔
      (ds.getD 9 0 = cpf_dv1 ds ∧ ds.getD 10 0 = cpf_dv2 ds)) ∧
    validate_document [5, 0, 5, 4, 2, 9, 8, 3, 8, 0, 0] = true := by
  constructor
  · simp [validate_document, hlen, hns]
  · decide

theorem cpf_checksum_characterization_witness :
    validate_document [5, 0, 5, 4, 2, 9, 8, 3, 8, 0, 0] = true :=
  (cpf_checksum_characterization [5, 0, 5, 4, 2, 9, 8, 3, 8, 0, 0] (by decide) (by decide)).2

/-- C3 counterexample: the fixture digits 60204424000108 — asserted
valid by the claim itself and by the example data — fail the first
check-digit equation under the claim's literal 11-entry weight list
4,3,2,9,8,7,6,5,4,3,2, while `validate_document` (standard weights,
which do validate the fixture) reports them valid; the claimed "valid
iff the literal-weight equations hold" is therefore false at this
concrete input. -/
theorem cnpj_spec_weight_list_refuted :
    validate_document [6, 0, 2, 0, 4, 4, 2, 4, 0, 0, 0, 1, 0, 8] = true ∧
    ¬([6, 0, 2, 0, 4, 4, 2, 4, 0, 0, 0, 1, 0, 8].getD 12 0 =
      cnpj_dv1_specWeights [6, 0, 2, 0, 4, 4, 2, 4, 0, 0, 0, 1, 0, 8]) := by
  decide

/-- C3 (amended): for every 14-digit sequence that is not one repeated
digit, `validate_document` reports a valid CNPJ iff the digits at
positions 12 and 13 equal the check digits computed by the weighted
modulo-11 scheme over the 12-digit base with weight sequence
5,4,3,2,9,8,7,6,5,4,3,2 for the first check digit (extended by one
more leading weight, 6, for the second); the digits 60204424000108 are
reported a valid CNPJ. -/
theorem cnpj_checksum_characterization (ds : List Nat)
    (hlen : ds.length = 14) (hns : all_same ds = false) :
    (validate_document ds = true ↔
      (ds.getD 12 0 = cnpj_dv1 ds ∧ ds.getD 13 0 = cnpj_dv2 ds)) ∧
    validate_document [6, 0, 2, 0, 4, 4, 2, 4, 0, 0, 0, 1, 0, 8] = true := by
  constructor
  · simp [validate_document, hlen, hns]
  · decide

theorem cnpj_checksum_characterization_witness :
    validate_document [6, 0, 2, 0, 4, 4, 2, 4, 0, 0, 0, 1, 0, 8] = true :=
  (cnpj_checksum_characterization [6, 0, 2, 0, 4, 4, 2, 4, 0, 0, 0, 1, 0, 8]
    (by decide) (by decide)).2

/-- C4: every 11- or 14-digit sequence composed of one repeated digit
is rejected by `validate_document`, regardless of the checksum
equations. -/
theorem repeated_digits_rejected (ds : List Nat)
    (hlen : ds.length = 11 ∨ ds.length = 14) (hsame : all_same ds = true) :
    validate_document ds = false := by
  rcases hlen with h | h <;> simp [validate_document, h, hsame]

theorem repeated_digits_rejected_witness :
    validate_document (List.replicate 14 0) = false :=
  repeated_digits_rejected (List.replicate 14 0) (Or.inr (by decide)) (by decide)

/-- C5: classification is a pure function of the digit count alone —
equal lengths classify equally regardless of digit values; length 11
yields CPF, length 14 yields CNPJ, any other length (including 0)
yields Unrecognized; and an Unrecognized classification always pairs
with `valid = false` in the validation outcome. -/
theorem classification_by_length (ds es : List Nat) :
    (ds.length = es.length → classify ds = classify es) ∧
    (ds.length = 11 → classify ds = IdentifierKind.CPF) ∧
    (ds.length = 14 → classify ds = IdentifierKind.CNPJ) ∧
    (ds.length ≠ 11 → ds.length ≠ 14 → classify ds = IdentifierKind.Unrecognized) ∧
    (classify ds = IdentifierKind.Unrecognized → (validateOutcome ds).2 = false) := by
  refine ⟨fun h => by simp [classify, h], fun h => by simp [classify, h],
    fun h => by simp [classify, h], fun h11 h14 => by simp [classify, h11, h14], fun h => ?_⟩
  by_cases h11 : ds.length = 11
  · simp [classify, h11] at h
  · by_cases h14 : ds.length = 14
    · simp [classify, h11, h14] at h
    · simp [validateOutcome, validate_document, h11, h14]

theorem classification_by_length_witness :
    classify [7] = IdentifierKind.Unrecognized :=
  (classification_by_length [7] []).2.2.2.1 (by decide) (by decide)

/-- C6: `format_document` is driven by length alone — a formatted
string is produced exactly for lengths 11 and 14; length 11 renders
the punctuated form `DDD.DDD.DDD-DD` and length 14 renders
`DD.DDD.DDD/DDDD-DD` (shown digit by digit, for arbitrary digit
values, hence also for checksum-invalid sequences); every other length
yields absent; and a concrete checksum-invalid 11-digit sequence is
still formatted, so formatting is independent of validation. -/
theorem format_document_shape :
    (∀ ds : List Nat, (format_document ds).isSome ↔ (ds.length = 11 ∨ ds.length = 14)) ∧
    (∀ d0 d1 d2 d3 d4 d5 d6 d7 d8 d9 d10 : Nat,
      format_document [d0, d1, d2, d3, d4, d5, d6, d7, d8, d9, d10] =
        some (String.mk [digitChar d0, digitChar d1, digitChar d2, '.',
          digitChar d3, digitChar d4, digitChar d5, '.',
          digitChar d6, digitChar d7, digitChar d8, '-', digitChar d9, digitChar d10])) ∧
    (∀ d0 d1 d2 d3 d4 d5 d6 d7 d8 d9 d10 d11 d12 d13 : Nat,
      format_document [d0, d1, d2, d3, d4, d5, d6, d7, d8, d9, d10, d11, d12, d13] =
        some (String.mk [digitChar d0, digitChar d1, '.',
          digitChar d2, digitChar d3, digitChar d4, '.',
          digitChar d5, digitChar d6, digitChar d7, '/',
          digitChar d8, digitChar d9, digitChar d10, digitChar d11, '-',
          digitChar d12, digitChar d13])) ∧
    (∀ ds : List Nat, ds.length ≠ 11 → ds.length ≠ 14 → format_document ds = none) ∧
    validate_document [1, 2, 3, 4, 5, 6, 7, 8, 9, 0, 0] = false ∧
    format_document [1, 2, 3, 4, 5, 6, 7, 8, 9, 0, 0] = some "123.456.789-00" := by
  refine ⟨fun ds => ?_, fun _ _ _ _ _ _ _ _ _ _ _ => rfl,
    fun _ _ _ _ _ _ _ _ _ _ _ _ _ _ => rfl,
    fun ds h11 h14 => by simp [format_document, h11, h14], by decide, by decide⟩
  by_cases h11 : ds.length = 11
  · simp [format_document, h11]
  · by_cases h14 : ds.length = 14
    · simp [format_document, h11, h14]
    · simp [format_document, h11, h14]

theorem format_document_shape_witness : format_document [5] = none :=
  format_document_shape.2.2.2.1 [5] (by decide) (by decide)

/-- C7: whenever `format_document` produces a formatted string, running
the Digit Extractor on that output reproduces exactly the digit
sequence extracted from the original input, in order. -/
theorem format_extract_roundtrip (s out : String)
    (hfmt : format_document_str s = some out) :
    extract_digits out = extract_digits s := by
  have hlt : ∀ d ∈ extract_digits s, d < 10 := extract_digits_lt s
  unfold format_document_str format_document at hfmt
  by_cases h11 : (extract_digits s).length = 11
  · rw [if_pos h11] at hfmt
    injection hfmt with hout
    subst hout
    show digitsOfChars _ = extract_digits s
    rw [digitsOfChars_append, digitsOfChars_cons_nondigit _ _ (by decide),
      digitsOfChars_append, digitsOfChars_cons_nondigit _ _ (by decide),
      digitsOfChars_append, digitsOfChars_cons_nondigit _ _ (by decide),
      digitsOfChars_charsOf _ (fun d hd => hlt d (List.take_subset _ _ hd)),
      digitsOfChars_charsOf _ (fun d hd => hlt d (List.drop_subset _ _ (List.take_subset _ _ hd))),
      digitsOfChars_charsOf _ (fun d hd => hlt d (List.drop_subset _ _ (List.take_subset _ _ hd))),
      digitsOfChars_charsOf _ (fun d hd => hlt d (List.drop_subset _ _ hd))]
    exact cpf_segments _
  · by_cases h14 : (extract_digits s).length = 14
    · rw [if_neg h11, if_pos h14] at hfmt
      injection hfmt with hout
      subst hout
      show digitsOfChars _ = extract_digits s
      rw [digitsOfChars_append, digitsOfChars_cons_nondigit _ _ (by decide),
        digitsOfChars_append, digitsOfChars_cons_nondigit _ _ (by decide),
        digitsOfChars_append, digitsOfChars_cons_nondigit _ _ (by decide),
        digitsOfChars_append, digitsOfChars_cons_nondigit _ _ (by decide),
        digitsOfChars_charsOf _ (fun d hd => hlt d (List.take_subset _ _ hd)),
        digitsOfChars_charsOf _
          (fun d hd => hlt d (List.drop_subset _ _ (List.take_subset _ _ hd))),
        digitsOfChars_charsOf _
          (fun d hd => hlt d (List.drop_subset _ _ (List.take_subset _ _ hd))),
        digitsOfChars_charsOf _
          (fun d hd => hlt d (List.drop_subset _ _ (List.take_subset _ _ hd))),
        digitsOfChars_charsOf _ (fun d hd => hlt d (List.drop_subset _ _ hd))]
      exact cnpj_segments _
    · rw [if_neg h11, if_neg h14] at hfmt
      exact absurd hfmt (by simp)

theorem format_extract_roundtrip_witness :
    extract_digits "505.429.838-00" = extract_digits "50542983800" :=
  format_extract_roundtrip "50542983800" "505.429.838-00" (by decide)

/-- C8: on any input whose post-stripping subscriber segment has 9
digits not beginning with 9 under an acceptable area code, strict
validation rejects while flexible validation accepts; and strict
validation only ever accepts a subscriber segment of exactly 8 digits
or of exactly 9 digits beginning with 9. -/
theorem strict_vs_flexible_phone (ds : List Nat) (a b : Nat) (rest : List Nat)
    (hstrip : strip_trunk (strip_country ds) = a :: b :: rest)
    (harea : 11 ≤ 10 * a + b) (harea' : 10 * a + b ≤ 99)
    (hlen : rest.length = 9) (h9 : rest.headD 0 ≠ 9) :
    (validate_phone true ds = false ∧ validate_phone false ds = true) ∧
    ∀ es : List Nat, validate_phone true es = true →
      ∃ a' b' rest', strip_trunk (strip_country es) = a' :: b' :: rest' ∧
        11 ≤ 10 * a' + b' ∧ 10 * a' + b' ≤ 99 ∧
        (rest'.length = 8 ∨ (rest'.length = 9 ∧ rest'.headD 0 = 9)) := by
  constructor
  · unfold validate_phone
    rw [hstrip]
    constructor
    · have h9' : ¬rest.head?.getD 0 = 9 := by
        simpa [List.headD_eq_head?_getD] using h9
      simp [harea, harea', hlen, h9']
    · simp [harea, harea', hlen]
  · intro es h
    unfold validate_phone at h
    rcases e : strip_trunk (strip_country es) with _ | ⟨a', tail⟩
    · rw [e] at h
      simp at h
    · rcases tail with _ | ⟨b', rest'⟩
      · rw [e] at h
        simp at h
      · rw [e] at h
        simp only [Bool.and_eq_true, Bool.or_eq_true, decide_eq_true_eq, if_true,
          beq_iff_eq] at h
        exact ⟨a', b', rest', rfl, h.1.1, h.1.2, h.2⟩

theorem strict_vs_flexible_phone_witness :
    validate_phone true [1, 6, 8, 9, 7, 1, 8, 4, 7, 2, 0] = false ∧
    validate_phone false [1, 6, 8, 9, 7, 1, 8, 4, 7, 2, 0] = true :=
  (strict_vs_flexible_phone [1, 6, 8, 9, 7, 1, 8, 4, 7, 2, 0] 1 6 [8, 9, 7, 1, 8, 4, 7, 2, 0]
    (by decide) (by decide) (by decide) (by decide) (by decide)).1

/-- C9: every engine operation is total over optional strings by
construction (each is a Lean function, so every input has a defined
result): an absent input maps to an absent output for all five
operations (never coerced to false or to a default formatted string),
a present input always maps to the per-value result, and a present
input with no digits at all (empty or all-noise text) maps to
false/Unrecognized/absent rather than any error. -/
theorem operations_total_null_safe :
    (validate_document_op none = none ∧ classify_document_op none = none ∧
      format_document_op none = none ∧
      (∀ strict : Bool, validate_phone_op strict none = none) ∧
      format_phone_op none = none) ∧
    (∀ s : String,
      validate_document_op (some s) = some (validate_document_str s) ∧
      classify_document_op (some s) = some (classify_document_str s) ∧
      format_document_op (some s) = format_document_str s ∧
      (∀ strict : Bool, validate_phone_op strict (some s) = some (validate_phone_str strict s)) ∧
      format_phone_op (some s) = format_phone_str s) ∧
    (∀ s : String, extract_digits s = [] →
      validate_document_str s = false ∧
      classify_document_str s = IdentifierKind.Unrecognized ∧
      format_document_str s = none ∧
      (∀ strict : Bool, validate_phone_str strict s = false) ∧
      format_phone_str s = none) := by
  refine ⟨⟨rfl, rfl, rfl, fun _ => rfl, rfl⟩, fun s => ⟨rfl, rfl, rfl, fun _ => rfl, rfl⟩,
    fun s h => ?_⟩
  refine ⟨?_, ?_, ?_, fun strict => ?_, ?_⟩ <;>
    simp only [validate_document_str, classify_document_str, format_document_str,
      validate_phone_str, format_phone_str, h] <;> rfl

theorem operations_total_null_safe_witness :
    validate_document_str "no digits at all!" = false :=
  (operations_total_null_safe.2.2 "no digits at all!" (by decide)).1

/-- C10: the `pig_latinnify` wrapper registers its plugin function with
the elementwise flag set, so under the host's columnar application
semantics the output at each position depends only on the input value
at that same position: whatever per-value implementation the
registered name resolves to and whatever a non-elementwise application
would have done, two input columns agreeing at position i produce
outputs agreeing at position i. -/
theorem pig_latinnify_elementwise :
    pig_latinnify.is_elementwise = true ∧
    ∀ (impl : String → String → String)
      (whole : List (Option String) → List (Option String))
      (xs ys : List (Option String)) (i : Nat),
      xs[i]? = ys[i]? →
      (apply_registration impl whole pig_latinnify xs)[i]? =
        (apply_registration impl whole pig_latinnify ys)[i]? := by
  refine ⟨rfl, fun impl whole xs ys i h => ?_⟩
  simp [apply_registration, pig_latinnify, List.getElem?_map, h]

theorem pig_latinnify_elementwise_witness :
    (apply_registration (fun _ s => s) id pig_latinnify [some "pig"])[0]? =
      (apply_registration (fun _ s => s) id pig_latinnify [some "pig", some "latin"])[0]? :=
  pig_latinnify_elementwise.2 (fun _ s => s) id [some "pig"] [some "pig", some "latin"] 0 rfl

end RustpyToolkit
